import Mathlib

/-!
Verification of the request-authentication and cross-origin-access-control
pipeline of the COA backend (`app/main.py`, `app/main1.py`, `app/config.py`).

Requests, responses and header maps are shallowly embedded; the two
hand-written CORS middlewares, the exception handlers and the route wiring are
translated from the Python sources.  The authentication chain itself lives in
`app/auth/middleware.py`, which is not among the sources; those functions are
modelled from the specification (each such definition is marked in its doc
comment).  Exceptions raised inside a wrapped call are represented by
`Except.error msg`, `msg` standing for `str(e)`.
-/

namespace CoaBackend

/-- A JSON-like value, rich enough for every body the pipeline builds. -/
inductive JVal where
  | jstr : String → JVal
  | jnat : Nat → JVal
  | jbool : Bool → JVal
  | jarr : List String → JVal
  | jobj : List (String × String) → JVal
  deriving DecidableEq, Repr

/-- Header maps: association lists of header name/value pairs. -/
abbrev Headers : Type := List (String × String)

/-- First-match lookup, the read operation of `request.headers.get` /
`response.headers[...]`. -/
def getHeader : Headers → String → Option String
  | [], _ => none
  | kv :: rest, k => if kv.1 = k then some kv.2 else getHeader rest k

/-- Remove every binding of a key (helper for dict-style assignment). -/
def removeHeader : Headers → String → Headers
  | [], _ => []
  | kv :: rest, k => if kv.1 = k then removeHeader rest k else kv :: removeHeader rest k

/-- `response.headers[k] = v`: dict-style assignment, replacing any previous
binding of `k`. -/
def setHeader (hs : Headers) (k v : String) : Headers :=
  (k, v) :: removeHeader hs k

/-- A sequence of header assignments, executed left to right like the
consecutive `response.headers[...] = ...` statements in the source. -/
def setHeaders (hs : Headers) (kvs : List (String × String)) : Headers :=
  kvs.foldl (fun h kv => setHeader h kv.1 kv.2) hs

/-- An inbound HTTP request: method, path and (lower-cased) request headers. -/
structure Request where
  method : String
  path : String
  headers : Headers
  deriving DecidableEq, Repr

/-- An outbound response: status code, JSON body (an object rendered as a
key/value list) and response headers. -/
structure Response where
  status : Nat
  body : List (String × JVal)
  headers : Headers
  deriving DecidableEq, Repr

/-- First-match lookup in a JSON body object. -/
def getField : List (String × JVal) → String → Option JVal
  | [], _ => none
  | kv :: rest, k => if kv.1 = k then some kv.2 else getField rest k

/-! ## Data model: principals, tokens, configuration -/

/-- An authenticated caller; the fields the pipeline actually constructs and
reads (`id`, `name`, `email`, `roles` — the ones the `DebugUser` class in
`app/main1.py` carries and the route bodies read). -/
structure Principal where
  id : String
  name : String
  email : String
  roles : List String
  deriving DecidableEq, Repr

/-- The fixed synthetic principal built by the `DebugUser` class in
`app/main1.py` lines 164–170 and 175–181. -/
def debugUser : Principal :=
  { id := "debug-user-id"
    name := "Debug User"
    email := "debug@beigene.com"
    roles := ["user"] }

/-- Distinguished token-validation failure reasons (spec §4.2 / §7); all of
them surface externally as `AuthenticationRequired` (a 401). -/
inductive AuthFailure where
  | NoCredential
  | Malformed
  | BadSignature
  | Expired
  | IssuerMismatch
  | AudienceMismatch
  | ProviderUnavailable
  deriving DecidableEq, Repr

/-- An abstract decoded bearer token: the identity claims plus the outcome of
each validation check (signature, expiry, issuer, audience) against the
configured identity provider. -/
structure TokenInfo where
  subject : String
  name : String
  email : String
  roles : List String
  wellFormed : Bool
  sigValid : Bool
  expValid : Bool
  issOk : Bool
  audOk : Bool
  deriving DecidableEq, Repr

/-- Modelled from the spec: §4.3 Principal Resolver (`app/auth/middleware.py`
is not among the sources) — pure mapping from validated claims to a
`Principal`. -/
def resolvePrincipal (t : TokenInfo) : Principal :=
  { id := t.subject, name := t.name, email := t.email, roles := t.roles }

/-- Modelled from the spec: §4.2 Token Validator (`app/auth/middleware.py` is
not among the sources) — key-set availability, well-formedness, signature,
expiry, issuer and audience must all pass; each failure is distinguished. -/
def validateToken (providerUp : Bool) (t : TokenInfo) : Except AuthFailure Principal :=
  if ¬ providerUp then Except.error AuthFailure.ProviderUnavailable
  else if ¬ t.wellFormed then Except.error AuthFailure.Malformed
  else if ¬ t.sigValid then Except.error AuthFailure.BadSignature
  else if ¬ t.expValid then Except.error AuthFailure.Expired
  else if ¬ t.issOk then Except.error AuthFailure.IssuerMismatch
  else if ¬ t.audOk then Except.error AuthFailure.AudienceMismatch
  else Except.ok (resolvePrincipal t)

/-- Split a character list at its first space, returning the parts before and
after it. -/
def splitFirstSpace : List Char → Option (List Char × List Char)
  | [] => none
  | c :: cs =>
    if c = ' ' then some ([], cs)
    else
      match splitFirstSpace cs with
      | none => none
      | some (l, r) => some (c :: l, r)

/-- Modelled from the spec: §4.1 Credential Extractor (`app/auth/middleware.py`
is not among the sources) — looks only at the `Authorization` header, requires
an exact `Bearer <token>` shape with a case-insensitive scheme keyword; any
other shape or a missing header yields absent, never an error. -/
def extractBearer (auth : Option String) : Option String :=
  match auth with
  | none => none
  | some s =>
    match splitFirstSpace s.data with
    | none => none
    | some (scheme, tok) =>
      if tok.contains ' ' then none
      else if scheme.map Char.toLower = "bearer".data then some (String.mk tok) else none

/-- Modelled from the spec: §4.4 `RequireAuthenticated`
(`require_authentication` in `app/auth/middleware.py`, not among the sources)
— Extractor → Validator → Resolver; on any failure at any stage the request
fails with `AuthenticationRequired` (the distinguished reason is carried as
the `Except.error` payload).  `decode` abstracts JWT parsing: `none` means the
credential is not a parseable token. -/
def require_authentication (decode : String → Option TokenInfo) (providerUp : Bool)
    (req : Request) : Except AuthFailure Principal :=
  match extractBearer (getHeader req.headers "authorization") with
  | none => Except.error AuthFailure.NoCredential
  | some raw =>
    match decode raw with
    | none => Except.error AuthFailure.Malformed
    | some t => validateToken providerUp t

/-- Modelled from the spec: §4.4 `OptionalAuthenticated`
(`optional_authentication` in `app/auth/middleware.py`, not among the sources)
— runs the same chain; on any failure returns absent rather than failing;
never raises. -/
def optional_authentication (decode : String → Option TokenInfo) (providerUp : Bool)
    (req : Request) : Option Principal :=
  match require_authentication decode providerUp req with
  | Except.ok p => some p
  | Except.error _ => none

/-- The startup configuration fields this core reads (`app/config.py`);
`DEBUG` defaults to `True` on line 18. -/
structure Settings where
  DEBUG : Bool
  deriving DecidableEq, Repr

/-- The default `Settings()` instance built at import time
(`app/config.py` line 97, with the class defaults of lines 9–93). -/
def defaultSettings : Settings :=
  { DEBUG := true }

/-! ## The hand-written CORS middlewares (from the sources) -/

/-- The four headers `emergency_cors_middleware` assigns on every path
(`app/main1.py` lines 52–55, 68–71, 87–90), in source order; `origin` is the
request's `Origin` header. -/
def emergencyCorsHdrs (origin : Option String) : List (String × String) :=
  [("Access-Control-Allow-Origin", origin.getD "*"),
   ("Access-Control-Allow-Credentials", "true"),
   ("Access-Control-Allow-Methods", "*"),
   ("Access-Control-Allow-Headers", "*")]

/-- `emergency_cors_middleware` (`app/main1.py` lines 41–93): intercepts
`OPTIONS` with a 200 `ok` body; otherwise forwards to `call_next` and stamps
the permissive echo-origin CORS headers plus `Vary: Origin` on the outgoing
response; a raised exception (`Except.error e`, `e` = `str(e)`) is converted
to a 500 whose body embeds `e`, with the same headers. -/
def emergencyCors (req : Request) (callNext : Request → Except String Response) : Response :=
  let origin : Option String := getHeader req.headers "origin"
  if req.method = "OPTIONS" then
    { status := 200
      body := [("status", JVal.jstr "ok")]
      headers := setHeaders []
        (emergencyCorsHdrs origin ++
          [("Access-Control-Max-Age", "86400"), ("Vary", "Origin")]) }
  else
    match callNext req with
    | Except.ok resp =>
      { resp with headers :=
          setHeaders resp.headers (emergencyCorsHdrs origin ++ [("Vary", "Origin")]) }
    | Except.error e =>
      { status := 500
        body := [("error", JVal.jstr "Internal server error"), ("detail", JVal.jstr e)]
        headers := setHeaders []
          (emergencyCorsHdrs origin ++ [("Vary", "Origin")]) }

/-- The four headers `enhanced_cors_middleware` assigns on every path
(`app/main.py` lines 112–115, 125–128, 140–143), in source order. -/
def enhancedCorsHdrs : List (String × String) :=
  [("Access-Control-Allow-Origin", "*"),
   ("Access-Control-Allow-Methods", "GET, POST, PUT, DELETE, OPTIONS"),
   ("Access-Control-Allow-Headers", "Content-Type, Authorization, X-Requested-With"),
   ("Access-Control-Allow-Credentials", "true")]

/-- `enhanced_cors_middleware` (`app/main.py` lines 96–144): intercepts
`OPTIONS` with a 200 `OK` body and wildcard CORS headers; otherwise forwards
to `call_next` and stamps the same wildcard headers on the outgoing response;
a raised exception becomes a 500 with a generic body and the same headers. -/
def enhancedCors (req : Request) (callNext : Request → Except String Response) : Response :=
  if req.method = "OPTIONS" then
    { status := 200
      body := [("status", JVal.jstr "OK")]
      headers := setHeaders []
        (enhancedCorsHdrs ++ [("Access-Control-Max-Age", "3600")]) }
  else
    match callNext req with
    | Except.ok resp =>
      { resp with headers := setHeaders resp.headers enhancedCorsHdrs }
    | Except.error _ =>
      { status := 500
        body := [("detail", JVal.jstr "Internal server error")]
        headers := setHeaders [] enhancedCorsHdrs }

/-! ## Exception handlers (from the sources) -/

/-- `unauthorized_handler` (`app/main.py` lines 295–314): the single producer
of 401 responses registered on the `main.py` app. -/
def unauthorized_handler (_req : Request) : Response :=
  { status := 401
    body := [("detail", JVal.jstr "Authentication required"),
             ("status_code", JVal.jnat 401),
             ("auth_info", JVal.jobj
               [("type", "Bearer"),
                ("description", "Please provide a valid Azure AD access token")])]
    headers :=
      [("WWW-Authenticate", "Bearer"),
       ("Access-Control-Allow-Origin", "*"),
       ("Access-Control-Allow-Methods", "GET, POST, PUT, DELETE, OPTIONS"),
       ("Access-Control-Allow-Headers", "Content-Type, Authorization, X-Requested-With")] }

/-- `not_found_handler` (`app/main1.py` lines 231–259). -/
def not_found_handler (req : Request) : Response :=
  let origin := (getHeader req.headers "origin").getD "*"
  { status := 404
    body := [("detail", JVal.jstr "Resource not found"),
             ("status_code", JVal.jnat 404),
             ("path", JVal.jstr req.path),
             ("method", JVal.jstr req.method),
             ("available_endpoints", JVal.jarr
               ["/api/aimta/health", "/api/aimta/cors-test", "/api/aimta/auth/status",
                "/api/aimta/compounds", "/api/aimta/templates", "/api/aimta/documents"])]
    headers := setHeaders []
      [("Access-Control-Allow-Origin", origin),
       ("Access-Control-Allow-Credentials", "true"),
       ("Access-Control-Allow-Methods", "*"),
       ("Access-Control-Allow-Headers", "*")] }

/-- `internal_error_handler` (`app/main1.py` lines 261–279): the `error` field
is `str(exc)` when `settings.DEBUG` is true and the generic text otherwise. -/
def internal_error_handler (debug : Bool) (req : Request) (exc : String) : Response :=
  let origin := (getHeader req.headers "origin").getD "*"
  { status := 500
    body := [("detail", JVal.jstr "Internal server error"),
             ("status_code", JVal.jnat 500),
             ("debug_mode", JVal.jbool debug),
             ("error", JVal.jstr (if debug then exc else "Internal server error"))]
    headers := setHeaders []
      [("Access-Control-Allow-Origin", origin),
       ("Access-Control-Allow-Credentials", "true"),
       ("Access-Control-Allow-Methods", "*"),
       ("Access-Control-Allow-Headers", "*")] }

/-! ## Debug-mode authentication (from `app/main1.py`) -/

/-- `debug_optional_auth` (`app/main1.py` lines 154–182).  `chain` is the
outcome of `await optional_authentication()`: `Except.ok (some u)` a validated
user, `Except.ok none` absent, `Except.error e` a raised exception caught by
the `except` clause. -/
def debug_optional_auth (debug : Bool) (chain : Except String (Option Principal)) :
    Option Principal :=
  match chain with
  | Except.ok (some u) => some u
  | Except.ok none => if debug then some debugUser else none
  | Except.error _ => if debug then some debugUser else none

/-- `auth_dependency` (`app/main1.py` line 185):
`debug_optional_auth if settings.DEBUG else require_authentication`.  The
result is `Except.error f` exactly when the chosen dependency rejects the
request (a 401); `requireResult` is the outcome `require_authentication` would
produce for this request. -/
def auth_dependency (debug : Bool) (chain : Except String (Option Principal))
    (requireResult : Except AuthFailure Principal) : Except AuthFailure (Option Principal) :=
  if debug then Except.ok (debug_optional_auth debug chain)
  else requireResult.map some

/-! ## CORS policy and the standard CORS layer -/

/-- A CORS policy (spec §3 `CorsPolicy`): the configuration handed to the
standard CORS middleware plus the permissive echo-origin flag. -/
structure CorsPolicy where
  allowOrigins : List String
  allowCredentials : Bool
  allowMethods : List String
  allowHeaders : List String
  maxAge : Nat
  permissive : Bool
  deriving DecidableEq, Repr

/-- Origin resolution against one configured pattern (spec §4.6): exact match,
or wildcard match where the pattern's literal part up to a trailing `*` must
lead the origin. -/
def matchOrigin (pat origin : String) : Bool :=
  match pat.data.getLast? with
  | some c => if c = '*' then pat.data.dropLast.isPrefixOf origin.data else pat = origin
  | none => pat = origin

/-- Modelled from the spec: §4.6 `Actual` state of the CORS Negotiator — the
header computation the standard CORS layer (the framework middleware
configured in `app/main.py` lines 61–93, whose implementation is not part of
this repository's sources) applies to a non-preflight response.  A matching or
echoed origin is attached together with the credentials flag and
`Vary: Origin`; no origin match in non-permissive mode omits the CORS headers
entirely. -/
def corsActual (policy : CorsPolicy) (req : Request) (resp : Response) : Response :=
  match getHeader req.headers "origin" with
  | none => resp
  | some o =>
    if policy.permissive || policy.allowOrigins.any (fun pat => matchOrigin pat o) then
      let hs1 := setHeader resp.headers "Access-Control-Allow-Origin" o
      let hs2 := if policy.allowCredentials
        then setHeader hs1 "Access-Control-Allow-Credentials" "true" else hs1
      { resp with headers := setHeader hs2 "Vary" "Origin" }
    else resp

/-- The `CORSMiddleware` configuration of `app/main.py` lines 61–93. -/
def mainPyPolicy : CorsPolicy :=
  { allowOrigins :=
      ["https://beone-d.beigenecorp.net",
       "https://10.8.63.207:3000",
       "http://10.8.63.207:3000",
       "https://localhost:3000",
       "http://localhost:3000",
       "https://office.live.com",
       "https://outlook.office.com",
       "https://outlook.office365.com",
       "https://teams.microsoft.com",
       "http://localhost:*",
       "https://localhost:*"]
    allowCredentials := true
    allowMethods := ["GET", "POST", "PUT", "DELETE", "OPTIONS", "HEAD"]
    allowHeaders :=
      ["Accept", "Accept-Language", "Content-Language", "Content-Type",
       "Authorization", "X-Requested-With", "Origin", "Referer",
       "User-Agent", "X-API-Key"]
    maxAge := 3600
    permissive := false }

/-- The `CORSMiddleware` configuration of `app/main1.py` lines 96–103:
`allow_origins=["*"]` with `allow_credentials=True`, registered
unconditionally. -/
def main1CorsPolicy : CorsPolicy :=
  { allowOrigins := ["*"]
    allowCredentials := true
    allowMethods := ["*"]
    allowHeaders := ["*"]
    maxAge := 3600
    permissive := false }

/-! ## Pipeline composition (from the middleware registration order) -/

/-- The `app/main.py` stack around a route outcome: `enhanced_cors_middleware`
is registered after `CORSMiddleware` (lines 61 and 96) and therefore runs
outside it, so its headers are stamped last on the way out. -/
def mainPyPipeline (policy : CorsPolicy) (inner : Request → Except String Response)
    (req : Request) : Response :=
  enhancedCors req (fun r => (inner r).map (fun resp => corsActual policy r resp))

/-- A route guarded by `Depends(require_authentication)` in `app/main.py`
(lines 167–186, 217–257): an authentication failure raises a 401 which the
registered `unauthorized_handler` renders. -/
def protectedRoute (decode : String → Option TokenInfo) (providerUp : Bool)
    (handler : Principal → Response) (req : Request) : Response :=
  match require_authentication decode providerUp req with
  | Except.error _ => unauthorized_handler req
  | Except.ok p => handler p

/-- The full `app/main.py` pipeline for an authenticated route. -/
def mainPyAuthPipeline (policy : CorsPolicy) (decode : String → Option TokenInfo)
    (providerUp : Bool) (handler : Principal → Response) (req : Request) : Response :=
  mainPyPipeline policy (fun r => Except.ok (protectedRoute decode providerUp handler r)) req

/-! ## Concrete fixtures for counterexamples and witnesses -/

/-- A trivial successful route outcome. -/
def okInner : Request → Except String Response :=
  fun _ => Except.ok { status := 200, body := [], headers := [] }

/-- A route invocation that raises. -/
def errInner : Request → Except String Response :=
  fun _ => Except.error "boom"

/-- A preflight request that carries no `Origin` header. -/
def reqNoOrigin : Request :=
  { method := "OPTIONS", path := "/api/compounds", headers := [] }

/-- An actual request from an origin that is in no configured allow-list. -/
def reqRandomSite : Request :=
  { method := "GET", path := "/compounds", headers := [("origin", "https://random.site")] }

/-- A request with no `Authorization` header. -/
def reqNoAuth : Request :=
  { method := "GET", path := "/auth/status", headers := [("origin", "https://localhost:3000")] }

/-- A decoder under which no credential parses as a token. -/
def decodeNone : String → Option TokenInfo :=
  fun _ => none

/-- The non-permissive allow-list of the spec's scenario. -/
def policyScenario : CorsPolicy :=
  { allowOrigins := ["https://a.com"]
    allowCredentials := true
    allowMethods := ["GET"]
    allowHeaders := ["Content-Type"]
    maxAge := 600
    permissive := false }

/-- The actual request of the spec's scenario, from `https://app.example.com`. -/
def reqAppExample : Request :=
  { method := "GET", path := "/data", headers := [("origin", "https://app.example.com")] }

/-- The route outcome of the spec's scenario. -/
def respRoute : Response :=
  { status := 200, body := [("ok", JVal.jbool true)], headers := [] }

/-- A syntactically valid, correctly signed token for the right issuer and
audience whose expiry lies in the past. -/
def expiredTok : TokenInfo :=
  { subject := "alice", name := "Alice", email := "alice@example.com", roles := ["user"],
    wellFormed := true, sigValid := true, expValid := false, issOk := true, audOk := true }

/-- A decoder that parses every raw credential as the expired token. -/
def decodeExpired : String → Option TokenInfo :=
  fun _ => some expiredTok

/-- A request presenting the expired bearer token. -/
def reqExpired : Request :=
  { method := "GET", path := "/api/user/me",
    headers := [("authorization", "Bearer expired-token"),
                ("origin", "https://localhost:3000")] }

/-- A route handler that would answer 200 to an authenticated principal. -/
def handlerOk : Principal → Response :=
  fun _ => { status := 200, body := [], headers := [] }

/-! ## Header-map lemmas -/

theorem getHeader_removeHeader (hs : Headers) (k k' : String) (h : k ≠ k') :
    getHeader (removeHeader hs k) k' = getHeader hs k' := by
  induction hs with
  | nil => rfl
  | cons kv rest ih =>
    by_cases hk : kv.1 = k
    · simp only [removeHeader, getHeader, if_pos hk, ih]
      have : kv.1 ≠ k' := hk ▸ h
      simp [getHeader, this]
    · simp only [removeHeader, getHeader, if_neg hk]
      by_cases hk' : kv.1 = k'
      · simp [getHeader, hk']
      · simp [getHeader, hk', ih]

/-- The characteristic equation of header assignment. -/
theorem getHeader_setHeader (hs : Headers) (k v k' : String) :
    getHeader (setHeader hs k v) k' = if k = k' then some v else getHeader hs k' := by
  by_cases h : k = k'
  · simp [setHeader, getHeader, h]
  · simp [setHeader, getHeader, h, getHeader_removeHeader hs k k' h]

/-! ## Header computations of the two middlewares -/

theorem emergencyCors_acao (req : Request) (inner : Request → Except String Response) :
    getHeader (emergencyCors req inner).headers "Access-Control-Allow-Origin"
      = some ((getHeader req.headers "origin").getD "*") := by
  unfold emergencyCors
  by_cases h : req.method = "OPTIONS"
  · simp [h, setHeaders, emergencyCorsHdrs, List.foldl, getHeader_setHeader]
  · cases hc : inner req with
    | ok resp => simp [h, hc, setHeaders, emergencyCorsHdrs, List.foldl, getHeader_setHeader]
    | error e => simp [h, hc, setHeaders, emergencyCorsHdrs, List.foldl, getHeader_setHeader]

theorem emergencyCors_acac (req : Request) (inner : Request → Except String Response) :
    getHeader (emergencyCors req inner).headers "Access-Control-Allow-Credentials"
      = some "true" := by
  unfold emergencyCors
  by_cases h : req.method = "OPTIONS"
  · simp [h, setHeaders, emergencyCorsHdrs, List.foldl, getHeader_setHeader]
  · cases hc : inner req with
    | ok resp => simp [h, hc, setHeaders, emergencyCorsHdrs, List.foldl, getHeader_setHeader]
    | error e => simp [h, hc, setHeaders, emergencyCorsHdrs, List.foldl, getHeader_setHeader]

theorem enhancedCors_acao (req : Request) (inner : Request → Except String Response) :
    getHeader (enhancedCors req inner).headers "Access-Control-Allow-Origin"
      = some "*" := by
  unfold enhancedCors
  by_cases h : req.method = "OPTIONS"
  · simp [h, setHeaders, enhancedCorsHdrs, List.foldl, getHeader_setHeader]
  · cases hc : inner req with
    | ok resp => simp [h, hc, setHeaders, enhancedCorsHdrs, List.foldl, getHeader_setHeader]
    | error e => simp [h, hc, setHeaders, enhancedCorsHdrs, List.foldl, getHeader_setHeader]

theorem enhancedCors_acac (req : Request) (inner : Request → Except String Response) :
    getHeader (enhancedCors req inner).headers "Access-Control-Allow-Credentials"
      = some "true" := by
  unfold enhancedCors
  by_cases h : req.method = "OPTIONS"
  · simp [h, setHeaders, enhancedCorsHdrs, List.foldl, getHeader_setHeader]
  · cases hc : inner req with
    | ok resp => simp [h, hc, setHeaders, enhancedCorsHdrs, List.foldl, getHeader_setHeader]
    | error e => simp [h, hc, setHeaders, enhancedCorsHdrs, List.foldl, getHeader_setHeader]

theorem emergencyCors_vary (req : Request) (inner : Request → Except String Response) :
    getHeader (emergencyCors req inner).headers "Vary" = some "Origin" := by
  unfold emergencyCors
  by_cases h : req.method = "OPTIONS"
  · simp [h, setHeaders, emergencyCorsHdrs, List.foldl, getHeader_setHeader]
  · cases hc : inner req with
    | ok resp => simp [h, hc, setHeaders, emergencyCorsHdrs, List.foldl, getHeader_setHeader]
    | error e => simp [h, hc, setHeaders, emergencyCorsHdrs, List.foldl, getHeader_setHeader]

/-! ## Claims -/

/-- C1 (counterexample): the claim "with `allow_credentials` true the
`Access-Control-Allow-Origin` value sent back is never the literal `*`" is
false on the code: on a request without an `Origin` header the emergency
middleware of `app/main1.py` answers `Access-Control-Allow-Origin: *`
together with `Access-Control-Allow-Credentials: true`, and the enhanced
middleware of `app/main.py` does so on every request. -/
theorem C1_counterexample :
    getHeader (emergencyCors reqNoOrigin okInner).headers "Access-Control-Allow-Origin"
        = some "*" ∧
    getHeader (emergencyCors reqNoOrigin okInner).headers "Access-Control-Allow-Credentials"
        = some "true" ∧
    getHeader (enhancedCors reqNoOrigin okInner).headers "Access-Control-Allow-Origin"
        = some "*" ∧
    getHeader (enhancedCors reqNoOrigin okInner).headers "Access-Control-Allow-Credentials"
        = some "true" := by
  decide

/-- C1 (amended): both middlewares always send `Access-Control-Allow-Credentials:
true`; the emergency middleware's `Access-Control-Allow-Origin` is the echoed
request origin whenever the request carries one and the literal `*` exactly
when it does not, while the enhanced middleware of `app/main.py` sends the
literal `*` on every request. -/
theorem C1_credentialed_wildcard_behaviour (req : Request)
    (inner : Request → Except String Response) :
    getHeader (emergencyCors req inner).headers "Access-Control-Allow-Origin"
        = some ((getHeader req.headers "origin").getD "*") ∧
    getHeader (emergencyCors req inner).headers "Access-Control-Allow-Credentials"
        = some "true" ∧
    getHeader (enhancedCors req inner).headers "Access-Control-Allow-Origin"
        = some "*" ∧
    getHeader (enhancedCors req inner).headers "Access-Control-Allow-Credentials"
        = some "true" :=
  ⟨emergencyCors_acao req inner, emergencyCors_acac req inner,
   enhancedCors_acao req inner, enhancedCors_acac req inner⟩

/-- C2: with the debug flag off, `debug_optional_auth` never produces the
synthetic debug principal: when the authentication chain yields no principal
it returns absent, when the chain raises (the swallowed-exception branch) it
also returns absent, and in general its outcome is exactly the chain's own
successful outcome — the fallback is only ever the explicit
`if settings.DEBUG` branch. -/
theorem C2_no_debug_fallback_when_off (e : String)
    (chain : Except String (Option Principal)) :
    debug_optional_auth false (Except.ok none) = none ∧
    debug_optional_auth false (Except.error e) = none ∧
    debug_optional_auth false chain =
      (match chain with
       | Except.ok r => r
       | Except.error _ => none) := by
  refine ⟨rfl, rfl, ?_⟩
  cases chain with
  | ok r => cases r <;> rfl
  | error e2 => rfl

/-- C8: every response leaving the emergency CORS middleware — preflight,
actual or error, and in particular the 404 and 500 handler envelopes, which
travel back through it — carries `Vary: Origin`; a fortiori every response
whose `Access-Control-Allow-Origin` is not the static wildcard does. -/
theorem C8_vary_origin (req : Request) (inner : Request → Except String Response) :
    getHeader (emergencyCors req inner).headers "Vary" = some "Origin" ∧
    getHeader (emergencyCors req
        (fun r => Except.ok (not_found_handler r))).headers "Vary" = some "Origin" ∧
    getHeader (emergencyCors req
        (fun r => Except.ok (internal_error_handler defaultSettings.DEBUG r "exc"))).headers
      "Vary" = some "Origin" :=
  ⟨emergencyCors_vary req inner,
   emergencyCors_vary req (fun r => Except.ok (not_found_handler r)),
   emergencyCors_vary req (fun r => Except.ok (internal_error_handler defaultSettings.DEBUG r "exc"))⟩

/-- C9 (counterexample): the claim "under the default configuration the debug
flag is off and the permissive echo-origin CORS mode is not enabled" is false:
`Settings.DEBUG` defaults to `True` (`app/config.py` line 18), the standard
CORS layer of `app/main1.py` is configured with `allow_origins=["*"]`, and the
unconditionally registered emergency middleware echoes an arbitrary origin. -/
theorem C9_counterexample :
    defaultSettings.DEBUG = true ∧
    main1CorsPolicy.allowOrigins = ["*"] ∧
    getHeader (emergencyCors reqRandomSite okInner).headers "Access-Control-Allow-Origin"
      = some "https://random.site" := by
  refine ⟨rfl, rfl, ?_⟩
  decide

/-- C9 (amended): debug mode and the permissive echo-origin CORS mode are both
ON by default, not opt-in: the default settings have `DEBUG = true`, the
standard CORS layer of `app/main1.py` allows every origin with credentials,
and the emergency middleware echoes whatever origin a request carries. -/
theorem C9_debug_and_permissive_default_on (req : Request)
    (inner : Request → Except String Response) :
    defaultSettings.DEBUG = true ∧
    main1CorsPolicy.allowOrigins = ["*"] ∧
    main1CorsPolicy.allowCredentials = true ∧
    getHeader (emergencyCors req inner).headers "Access-Control-Allow-Origin"
      = some ((getHeader req.headers "origin").getD "*") :=
  ⟨rfl, rfl, rfl, emergencyCors_acao req inner⟩

/-- C10: with the debug flag set, the dependency guarding the business routes
(`auth_dependency = debug_optional_auth`) never rejects: whatever the
authentication chain does — a validated user, an absent principal, or a raised
exception — the dependency returns `Except.ok` of a present principal, namely
the validated user when the chain produced one and the synthetic debug user
otherwise, so these routes never answer 401 in debug mode. -/
theorem C10_debug_guard_always_principal
    (chain : Except String (Option Principal))
    (requireResult : Except AuthFailure Principal) :
    auth_dependency true chain requireResult
        = Except.ok (debug_optional_auth true chain) ∧
    debug_optional_auth true chain =
      some (match chain with
            | Except.ok (some u) => u
            | Except.ok none => debugUser
            | Except.error _ => debugUser) ∧
    (debug_optional_auth true chain).isSome = true := by
  have h2 : debug_optional_auth true chain =
      some (match chain with
            | Except.ok (some u) => u
            | Except.ok none => debugUser
            | Except.error _ => debugUser) := by
    cases chain with
    | ok r => cases r <;> rfl
    | error e => rfl
  exact ⟨rfl, h2, by rw [h2]; rfl⟩

/-- C4 (counterexample): the claim "with debug off a 500 body never contains
the internal error text, and any two internal exceptions produce identical 500
bodies" is false on the code: the emergency CORS middleware's catch-all
(`app/main1.py` lines 78–93) builds its 500 body with `detail = str(e)`
without consulting the debug flag at all, so the internal error text always
leaks and two distinct exceptions produce distinct bodies. -/
theorem C4_counterexample :
    getField (emergencyCors reqRandomSite
        (fun _ => Except.error "secret database failure")).body "detail"
      = some (JVal.jstr "secret database failure") ∧
    (emergencyCors reqRandomSite (fun _ => Except.error "secret database failure")).status
      = 500 ∧
    emergencyCors reqRandomSite (fun _ => Except.error "exception one")
      ≠ emergencyCors reqRandomSite (fun _ => Except.error "exception two") := by
  refine ⟨?_, ?_, ?_⟩ <;> decide

/-- C4 (amended): the registered 500 exception handler of `app/main1.py` does
satisfy the contract — with debug off its body is a fixed generic envelope,
identical for any two internal exceptions, and the full error text appears in
it exactly when debug mode is active — but a 500 built by the emergency CORS
middleware's catch-all always embeds `str(e)` in its `detail` field, debug on
or off. -/
theorem C4_debug_bifurcation (req : Request) (e m1 m2 : String) :
    internal_error_handler false req m1 = internal_error_handler false req m2 ∧
    getField (internal_error_handler false req m1).body "error"
      = some (JVal.jstr "Internal server error") ∧
    getField (internal_error_handler true req m1).body "error"
      = some (JVal.jstr m1) ∧
    getField (emergencyCors reqRandomSite (fun _ => Except.error e)).body "detail"
      = some (JVal.jstr e) := by
  refine ⟨?_, ?_, ?_, ?_⟩
  · simp [internal_error_handler]
  · simp [internal_error_handler, getField]
  · simp [internal_error_handler, getField]
  · simp [emergencyCors, reqRandomSite, getField]

/-- C5: in debug mode, a request with no `Authorization` header that reaches
the optional-authentication entry point yields the fixed synthetic principal
with id `"debug-user-id"`, not absent: the modelled `optional_authentication`
returns absent for a missing header and `debug_optional_auth` substitutes the
debug user. -/
theorem C5_debug_synthetic_principal (decode : String → Option TokenInfo)
    (providerUp : Bool) (req : Request)
    (h : getHeader req.headers "authorization" = none) :
    debug_optional_auth true (Except.ok (optional_authentication decode providerUp req))
      = some debugUser ∧
    debugUser.id = "debug-user-id" := by
  have hopt : optional_authentication decode providerUp req = none := by
    unfold optional_authentication require_authentication
    rw [h]
    rfl
  rw [hopt]
  exact ⟨rfl, rfl⟩

/-- Witness for C5: the concrete request `GET /auth/status` without an
`Authorization` header, in debug mode. -/
theorem C5_witness :
    getHeader reqNoAuth.headers "authorization" = none ∧
    (debug_optional_auth true
        (Except.ok (optional_authentication decodeNone true reqNoAuth))
      = some debugUser ∧
     debugUser.id = "debug-user-id") :=
  ⟨by decide, C5_debug_synthetic_principal decodeNone true reqNoAuth (by decide)⟩

/-- C6: an `OPTIONS` request short-circuits in both hand-written middlewares:
the result does not depend on the wrapped application at all (no route logic
or authentication can run), and its status is in {200, 204} (both return
200). -/
theorem C6_options_short_circuit (req : Request)
    (f g : Request → Except String Response) (h : req.method = "OPTIONS") :
    enhancedCors req f = enhancedCors req g ∧
    ((enhancedCors req f).status = 200 ∨ (enhancedCors req f).status = 204) ∧
    emergencyCors req f = emergencyCors req g ∧
    ((emergencyCors req f).status = 200 ∨ (emergencyCors req f).status = 204) := by
  unfold enhancedCors emergencyCors
  simp [h]

/-- Witness for C6: a concrete `OPTIONS` request, compared across a succeeding
and a raising inner application. -/
theorem C6_witness :
    reqNoOrigin.method = "OPTIONS" ∧
    (enhancedCors reqNoOrigin okInner = enhancedCors reqNoOrigin errInner ∧
     ((enhancedCors reqNoOrigin okInner).status = 200 ∨
      (enhancedCors reqNoOrigin okInner).status = 204) ∧
     emergencyCors reqNoOrigin okInner = emergencyCors reqNoOrigin errInner ∧
     ((emergencyCors reqNoOrigin okInner).status = 200 ∨
      (emergencyCors reqNoOrigin okInner).status = 204)) :=
  ⟨rfl, C6_options_short_circuit reqNoOrigin okInner errInner rfl⟩

/-! ## Lemmas about the standard CORS layer -/

theorem corsActual_status (policy : CorsPolicy) (req : Request) (resp : Response) :
    (corsActual policy req resp).status = resp.status := by
  unfold corsActual
  cases ho : getHeader req.headers "origin" with
  | none => rfl
  | some o =>
    by_cases hc : (policy.permissive
        || policy.allowOrigins.any (fun pat => matchOrigin pat o)) = true
    · simp [hc]
    · simp only [Bool.not_eq_true] at hc
      simp [hc]

theorem corsActual_body (policy : CorsPolicy) (req : Request) (resp : Response) :
    (corsActual policy req resp).body = resp.body := by
  unfold corsActual
  cases ho : getHeader req.headers "origin" with
  | none => rfl
  | some o =>
    by_cases hc : (policy.permissive
        || policy.allowOrigins.any (fun pat => matchOrigin pat o)) = true
    · simp [hc]
    · simp only [Bool.not_eq_true] at hc
      simp [hc]

/-- The `app/main.py` stack on a non-`OPTIONS` request with a succeeding inner
application: the standard CORS layer computes its headers first, then the
enhanced middleware stamps its wildcard headers. -/
theorem mainPyPipeline_ok_fn (policy : CorsPolicy) (f : Request → Response) (req : Request)
    (hm : req.method ≠ "OPTIONS") :
    mainPyPipeline policy (fun r => Except.ok (f r)) req
      = { corsActual policy req (f req) with
          headers := setHeaders (corsActual policy req (f req)).headers enhancedCorsHdrs } := by
  unfold mainPyPipeline enhancedCors
  rw [if_neg hm]
  rfl

/-- The enhanced middleware's four CORS header assignments do not disturb
`WWW-Authenticate`. -/
theorem getHeader_setHeaders_enhanced_www (hs : Headers) :
    getHeader (setHeaders hs enhancedCorsHdrs) "WWW-Authenticate"
      = getHeader hs "WWW-Authenticate" := by
  simp [setHeaders, enhancedCorsHdrs, List.foldl, getHeader_setHeader]

theorem corsActual_preserves_www (policy : CorsPolicy) (req : Request) (resp : Response) :
    getHeader (corsActual policy req resp).headers "WWW-Authenticate"
      = getHeader resp.headers "WWW-Authenticate" := by
  unfold corsActual
  cases ho : getHeader req.headers "origin" with
  | none => rfl
  | some o =>
    by_cases hc : (policy.permissive
        || policy.allowOrigins.any (fun pat => matchOrigin pat o)) = true
    · cases hcred : policy.allowCredentials with
      | true => simp [hc, hcred, getHeader_setHeader]
      | false => simp [hc, hcred, getHeader_setHeader]
    · simp only [Bool.not_eq_true] at hc
      simp [hc]

/-- C3 (counterexample): the claim "a non-matching origin on an actual request
makes the response omit all CORS headers" is false on the code: on the spec's
own scenario (origin `https://app.example.com`, non-permissive allow-list
`["https://a.com"]`) the `enhanced_cors_middleware` of `app/main.py`, which
runs outside the standard CORS layer, stamps
`Access-Control-Allow-Origin: *` on the outgoing response. -/
theorem C3_counterexample :
    getHeader (mainPyPipeline policyScenario
        (fun _ => Except.ok respRoute) reqAppExample).headers
      "Access-Control-Allow-Origin" = some "*" := by
  decide

/-- C3 (amended): for an actual request whose origin matches nothing in a
non-permissive allow-list, the standard CORS layer does leave the response
untouched (omitting the CORS headers), and the status and body still reflect
the route outcome — but the outer enhanced middleware then sets
`Access-Control-Allow-Origin: *` on the response, so the final response
carries wildcard CORS headers instead of omitting them. -/
theorem C3_unmatched_origin_wildcarded (policy : CorsPolicy) (req : Request)
    (resp : Response) (o : String)
    (hm : req.method ≠ "OPTIONS")
    (ho : getHeader req.headers "origin" = some o)
    (hperm : policy.permissive = false)
    (hmatch : policy.allowOrigins.any (fun pat => matchOrigin pat o) = false) :
    corsActual policy req resp = resp ∧
    (mainPyPipeline policy (fun _ => Except.ok resp) req).status = resp.status ∧
    (mainPyPipeline policy (fun _ => Except.ok resp) req).body = resp.body ∧
    getHeader (mainPyPipeline policy (fun _ => Except.ok resp) req).headers
      "Access-Control-Allow-Origin" = some "*" := by
  have hca : corsActual policy req resp = resp := by
    unfold corsActual
    rw [ho]
    simp [hperm, hmatch]
  refine ⟨hca, ?_, ?_, ?_⟩
  · unfold mainPyPipeline enhancedCors
    rw [if_neg hm]
    simp [Except.map, hca]
  · unfold mainPyPipeline enhancedCors
    rw [if_neg hm]
    simp [Except.map, hca]
  · exact enhancedCors_acao req _

/-- Witness for C3 (amended): the spec's scenario instantiated concretely. -/
theorem C3_witness :
    reqAppExample.method ≠ "OPTIONS" ∧
    getHeader reqAppExample.headers "origin" = some "https://app.example.com" ∧
    policyScenario.permissive = false ∧
    policyScenario.allowOrigins.any
      (fun pat => matchOrigin pat "https://app.example.com") = false ∧
    (corsActual policyScenario reqAppExample respRoute = respRoute ∧
     (mainPyPipeline policyScenario
        (fun _ => Except.ok respRoute) reqAppExample).status = respRoute.status ∧
     (mainPyPipeline policyScenario
        (fun _ => Except.ok respRoute) reqAppExample).body = respRoute.body ∧
     getHeader (mainPyPipeline policyScenario
        (fun _ => Except.ok respRoute) reqAppExample).headers
       "Access-Control-Allow-Origin" = some "*") :=
  ⟨by decide, by decide, rfl, by decide,
   C3_unmatched_origin_wildcarded policyScenario reqAppExample respRoute
     "https://app.example.com" (by decide) (by decide) rfl (by decide)⟩

/-- C7: a request presenting an expired (well-formed, correctly signed) token
fails `require_authentication` with the distinguished `Expired` reason —
externally an `AuthenticationRequired` — and the `app/main.py` pipeline
renders it through `unauthorized_handler`, whose response has status 401 and
carries `WWW-Authenticate: Bearer`; that handler is the sole producer of 401
responses registered on the app, and it attaches the header on every
request. -/
theorem C7_expired_token_401 (decode : String → Option TokenInfo)
    (handler : Principal → Response) (req : Request) (raw : String) (t : TokenInfo)
    (hm : req.method ≠ "OPTIONS")
    (hx : extractBearer (getHeader req.headers "authorization") = some raw)
    (hd : decode raw = some t)
    (hwf : t.wellFormed = true) (hsig : t.sigValid = true) (hexp : t.expValid = false) :
    require_authentication decode true req = Except.error AuthFailure.Expired ∧
    (mainPyAuthPipeline mainPyPolicy decode true handler req).status = 401 ∧
    getHeader (mainPyAuthPipeline mainPyPolicy decode true handler req).headers
      "WWW-Authenticate" = some "Bearer" ∧
    (unauthorized_handler req).status = 401 ∧
    getHeader (unauthorized_handler req).headers "WWW-Authenticate" = some "Bearer" := by
  have hra : require_authentication decode true req = Except.error AuthFailure.Expired := by
    simp [require_authentication, validateToken, hx, hd, hwf, hsig, hexp]
  have hpr : protectedRoute decode true handler req = unauthorized_handler req := by
    unfold protectedRoute
    rw [hra]
  have heq := mainPyPipeline_ok_fn mainPyPolicy (protectedRoute decode true handler) req hm
  refine ⟨hra, ?_, ?_, rfl, rfl⟩
  · unfold mainPyAuthPipeline
    rw [heq]
    show (corsActual mainPyPolicy req (protectedRoute decode true handler req)).status = 401
    rw [corsActual_status, hpr]
    rfl
  · unfold mainPyAuthPipeline
    rw [heq]
    show getHeader
        (setHeaders (corsActual mainPyPolicy req
          (protectedRoute decode true handler req)).headers enhancedCorsHdrs)
        "WWW-Authenticate" = some "Bearer"
    rw [getHeader_setHeaders_enhanced_www, corsActual_preserves_www, hpr]
    simp [unauthorized_handler, getHeader]

/-- Witness for C7: the concrete request carrying the expired bearer token. -/
theorem C7_witness :
    reqExpired.method ≠ "OPTIONS" ∧
    extractBearer (getHeader reqExpired.headers "authorization") = some "expired-token" ∧
    decodeExpired "expired-token" = some expiredTok ∧
    expiredTok.expValid = false ∧
    (require_authentication decodeExpired true reqExpired
        = Except.error AuthFailure.Expired ∧
     (mainPyAuthPipeline mainPyPolicy decodeExpired true handlerOk reqExpired).status
        = 401 ∧
     getHeader (mainPyAuthPipeline mainPyPolicy decodeExpired true handlerOk
        reqExpired).headers "WWW-Authenticate" = some "Bearer" ∧
     (unauthorized_handler reqExpired).status = 401 ∧
     getHeader (unauthorized_handler reqExpired).headers "WWW-Authenticate"
        = some "Bearer") :=
  ⟨by decide, by decide, rfl, rfl,
   C7_expired_token_401 decodeExpired handlerOk reqExpired "expired-token" expiredTok
     (by decide) (by decide) rfl rfl rfl rfl⟩

end CoaBackend
